import Mathlib

/-!
Verification of `src/utils/call_llm.py` (the active `call_llm` definition).

The model is a shallow embedding: the process environment is an association
list of variable names to values, the HTTP transport is a function from the
outgoing request to an outcome, JSON values are a small inductive type, and
each `raise` site of the Python function becomes a constructor of `LLMError`.
The function's observable behaviour per invocation is captured by
`CallOutput`: the returned value or error, the request handed to
`requests.post` (if any), and the log lines appended to the log file.
-/

namespace CallLlm

/-- JSON values as produced by Python's `json` module: an object is an
insertion-ordered dict with unique string keys, here an association list. -/
inductive Json where
  | null
  | bool (b : Bool)
  | num (q : ℚ)
  | str (s : String)
  | arr (elems : List Json)
  | obj (fields : List (String × Json))

/-- Python `repr` of a parsed JSON value (`str` and `repr` agree on
containers; strings gain single quotes inside containers). -/
def pyRepr : Json → String
  | .null => "None"
  | .bool true => "True"
  | .bool false => "False"
  | .num q => if q.den = 1 then toString q.num else toString q
  | .str s => "'" ++ s ++ "'"
  | .arr l => "[" ++ String.intercalate ", " (l.attach.map fun x => pyRepr x.1) ++ "]"
  | .obj f =>
      "\x7b" ++
        String.intercalate ", "
          (f.attach.map fun x => "'" ++ x.1.1 ++ "': " ++ pyRepr x.1.2) ++
      "\x7d"
decreasing_by
  · have h := List.sizeOf_lt_of_mem x.2
    simp only [Json.arr.sizeOf_spec]
    omega
  · rcases x with ⟨⟨a, b⟩, hmem⟩
    have h := List.sizeOf_lt_of_mem hmem
    simp only [Prod.mk.sizeOf_spec] at h
    simp only [Json.obj.sizeOf_spec]
    show sizeOf b < 1 + sizeOf f
    omega

/-- Python `str` of a parsed JSON value, as interpolated by an f-string:
a string renders verbatim, anything else as its `repr`. -/
def pyStr : Json → String
  | .str s => s
  | j => pyRepr j

/-- Dict field access `d.get(k, default)` on a parsed JSON object. -/
def jsonGet : Json → String → Option Json
  | .obj fields, k => fields.lookup k
  | _, _ => none

/-- One line appended to the log file.  `.prompt p` stands for the line
`PROMPT: {p}` (call_llm.py line 34); `.response j` stands for
`RESPONSE:\n{json.dumps(j, indent=2)}` (line 75). -/
inductive LogEntry where
  | prompt (p : String)
  | response (j : Json)

/-- The HTTP request handed to `requests.post` (line 73): target URL,
headers dict, and JSON payload. -/
structure HttpRequest where
  url : String
  headers : List (String × String)
  payload : Json

/-- The provider's HTTP response: status code, reason phrase and the body.
`body = none` models a body that is not valid JSON (so `response.json()`
raises a JSON decode error). -/
structure HttpResponse where
  status : Nat
  reason : String
  body : Option Json

/-- Outcome of the transport layer for one POST: a response, or one of the
`requests` exceptions handled by the source (lines 88-93). -/
inductive HttpOutcome where
  | response (r : HttpResponse)
  | connectionError
  | timeout
  | requestException (e : String)

/-- The distinct failure modes of `call_llm`, one constructor per `raise`
site of the source.  `configError` is the `ValueError` raised for a missing
environment variable (lines 39, 53, 55); `httpError` is the `Exception`
raised in the `HTTPError` branch (line 87), carrying the HTTP status and
the full message; `parseFailed` is the `except ValueError` branch (line 95),
reached when the response body cannot be parsed as JSON; `structureError`
models the uncaught `KeyError`/`IndexError`/`TypeError` when a successful
response lacks the `choices[0].message.content` shape (line 79). -/
inductive LLMError where
  | configError (msg : String)
  | httpError (status : Nat) (msg : String)
  | connectionFailed (msg : String)
  | timedOut (msg : String)
  | requestFailed (msg : String)
  | parseFailed (msg : String)
  | structureError

/-- Provider configuration resolved from the environment (lines 37-50). -/
structure ProviderConfig where
  provider : String
  model : String
  base_url : String
  api_key : String

/-- Python truthiness check `if not v: raise ValueError(f"{name} ... required")`
applied to `os.environ.get(name)`: both an unset variable and an empty
string fail (lines 39, 53, 55). -/
def required (v : Option String) (varName : String) : Except LLMError String :=
  match v with
  | none => .error (.configError (varName ++ " environment variable is required"))
  | some s =>
      if s = "" then .error (.configError (varName ++ " environment variable is required"))
      else .ok s

/-- Configuration resolution, lines 37-55: read `LLM_PROVIDER`, then the
provider-prefixed model, base URL and optional API key (defaulting to the
empty string). -/
def resolveConfig (env : List (String × String)) : Except LLMError ProviderConfig := do
  let provider ← required (env.lookup "LLM_PROVIDER") "LLM_PROVIDER"
  let model ← required (env.lookup (provider ++ "_MODEL")) (provider ++ "_MODEL")
  let base_url ← required (env.lookup (provider ++ "_BASE_URL")) (provider ++ "_BASE_URL")
  let api_key := (env.lookup (provider ++ "_API_KEY")).getD ""
  pure ⟨provider, model, base_url, api_key⟩

/-- Request construction, lines 57-71: the URL is the base URL with the
fixed endpoint suffix appended; headers always carry Content-Type and carry
a bearer Authorization header exactly when the API key is non-empty; the
payload is the model, one user message holding the prompt verbatim, and
temperature 0.7. -/
def mkRequest (cfg : ProviderConfig) (prompt : String) : HttpRequest :=
  { url := cfg.base_url ++ "/v1/chat/completions"
    headers :=
      [("Content-Type", "application/json")] ++
        (if cfg.api_key = "" then [] else [("Authorization", "Bearer " ++ cfg.api_key)])
    payload := Json.obj
      [("model", Json.str cfg.model),
       ("messages", Json.arr [Json.obj [("role", Json.str "user"), ("content", Json.str prompt)]]),
       ("temperature", Json.num (7 / 10))] }

/-- String of the `requests.HTTPError` raised by `raise_for_status` for a
status in 400-599: `"{code} Client Error: {reason} for url: {url}"` or the
`Server Error` variant. -/
def httpErrorStr (status : Nat) (reason url : String) : String :=
  toString status ++ (if status < 500 then " Client Error: " else " Server Error: ") ++
    reason ++ " for url: " ++ url

/-- The `(Details: ...)` suffix built in the `HTTPError` handler (lines
81-85): `response.json().get("error", "No additional details")` interpolated
into the message.  When the parsed body is not a dict, `.get` raises
`AttributeError`, swallowed by the bare `except`, and no suffix is added. -/
def detailsSuffix (body : Json) : String :=
  match body with
  | .obj fields => " (Details: " ++ pyStr ((fields.lookup "error").getD (.str "No additional details")) ++ ")"
  | _ => ""

/-- Extraction `response.json()["choices"][0]["message"]["content"]`
(line 79).  `none` means one of the lookups raises (`KeyError`,
`IndexError` or `TypeError`), an uncaught structural failure. -/
def extractContent : Json → Option Json
  | .obj fields =>
      match fields.lookup "choices" with
      | some (.arr (.obj mf :: _)) =>
          match mf.lookup "message" with
          | some (.obj cf) => cf.lookup "content"
          | _ => none
      | _ => none
  | _ => none

/-- Handling of a received HTTP response, lines 74-87 and 95: parse the
body (a parse failure is raised by `response.json()` as a JSON decode
error, a `ValueError`, caught by the `except ValueError` branch with the
provider-specific message), log the parsed response, let
`raise_for_status` raise for a 400-599 status (handled by building the
`HTTP error occurred` message with best-effort detail), and otherwise
extract `choices[0].message.content`. -/
def handleResponse (provider url : String) (resp : HttpResponse) :
    Except LLMError Json × List LogEntry :=
  match resp.body with
  | none =>
      (.error (.parseFailed ("Failed to parse response as JSON from " ++ provider ++
        ". The server might have returned an invalid response.")), [])
  | some body =>
      if 400 ≤ resp.status ∧ resp.status < 600 then
        (.error (.httpError resp.status
            ("HTTP error occurred: " ++ httpErrorStr resp.status resp.reason url ++
              detailsSuffix body)),
          [.response body])
      else
        match extractContent body with
        | some v => (.ok v, [.response body])
        | none => (.error .structureError, [.response body])

/-- Dispatch over the transport outcome, lines 73-93: a response is handled
by `handleResponse`; the remaining `requests` exceptions are wrapped into
the messages of lines 89, 91 and 93. -/
def handleOutcome (provider url : String) (o : HttpOutcome) :
    Except LLMError Json × List LogEntry :=
  match o with
  | .response r => handleResponse provider url r
  | .connectionError =>
      (.error (.connectionFailed ("Failed to connect to " ++ provider ++
        " API. Check your network connection.")), [])
  | .timeout =>
      (.error (.timedOut ("Request to " ++ provider ++ " API timed out.")), [])
  | .requestException e =>
      (.error (.requestFailed ("An error occurred while making the request to " ++
        provider ++ ": " ++ e)), [])

/-- Observable behaviour of one invocation: the result (returned value or
raised error), the request handed to `requests.post` (none when
configuration resolution raised first), and the log lines appended. -/
structure CallOutput where
  result : Except LLMError Json
  request : Option HttpRequest
  logs : List LogEntry

/-- The active `call_llm` of `src/utils/call_llm.py` (lines 24-95): log the
prompt, resolve configuration, build and issue the POST, handle the
outcome.  The `use_cache` parameter is accepted but never read by the
active definition (the cache code path is commented out). -/
def call_llm (env : List (String × String)) (net : HttpRequest → HttpOutcome)
    (prompt : String) ( use_cache : Bool) : CallOutput :=
  match resolveConfig env with
  | .error e => ⟨.error e, none, [.prompt prompt]⟩
  | .ok cfg =>
      let req := mkRequest cfg prompt
      let rl := handleOutcome cfg.provider req.url (net req)
      ⟨rl.1, some req, .prompt prompt :: rl.2⟩

/-- Sequential invocations with the same environment and transport. -/
def runCalls (env : List (String × String)) (net : HttpRequest → HttpOutcome)
    (prompts : List String) (u : Bool) : List CallOutput :=
  prompts.map (fun p => call_llm env net p u)

/-- The network requests actually issued by a sequence of invocations. -/
def requestsIssued (outs : List CallOutput) : List HttpRequest :=
  outs.filterMap (fun o => o.request)

/-- Helper: string append is associative. -/
theorem str_append_assoc (a b c : String) : a ++ b ++ c = a ++ (b ++ c) := by
  apply String.ext
  simp [String.data_append]

/-- Helper: a fully present, non-empty configuration resolves to the
expected `ProviderConfig`, with the API key defaulting to the empty string
when its variable is absent. -/
theorem resolveConfig_eq (env : List (String × String)) (P M B : String)
    (hp : env.lookup "LLM_PROVIDER" = some P) (hP : P ≠ "")
    (hm : env.lookup (P ++ "_MODEL") = some M) (hM : M ≠ "")
    (hb : env.lookup (P ++ "_BASE_URL") = some B) (hB : B ≠ "") :
    resolveConfig env = .ok ⟨P, M, B, (env.lookup (P ++ "_API_KEY")).getD ""⟩ := by
  simp [resolveConfig, required, hp, hm, hb, hP, hM, hB, bind, Except.bind, pure, Except.pure]

/-- C1: if configuration resolution succeeds and the POST returns a 2xx
status with a JSON body of shape
`{"choices":[{"message":{"content": c}}]}`, then `call_llm` returns
exactly `c`. -/
theorem call_llm_success_returns_content (env : List (String × String))
    (net : HttpRequest → HttpOutcome) (prompt : String) (u : Bool)
    (cfg : ProviderConfig) (status : Nat) (reason c : String)
    (hcfg : resolveConfig env = .ok cfg)
    (hnet : net (mkRequest cfg prompt) = .response ⟨status, reason,
      some (Json.obj [("choices",
        Json.arr [Json.obj [("message", Json.obj [("content", Json.str c)])]])])⟩)
    (h2xx : 200 ≤ status ∧ status < 300) :
    (call_llm env net prompt u).result = .ok (Json.str c) := by
  unfold call_llm
  rw [hcfg]
  simp only [hnet, handleOutcome, handleResponse]
  rw [if_neg (by omega)]
  simp [extractContent, List.lookup]

/-- Witness for C1: the spec's mock scenario, `invoke("ping") = "hi"`. -/
theorem call_llm_success_returns_content_witness :
    (call_llm [("LLM_PROVIDER", "XAI"), ("XAI_MODEL", "grok"), ("XAI_BASE_URL", "http://mock")]
      (fun _ => .response ⟨200, "OK", some (Json.obj [("choices",
        Json.arr [Json.obj [("message", Json.obj [("content", Json.str "hi")])]])])⟩)
      "ping" true).result = .ok (Json.str "hi") :=
  call_llm_success_returns_content _ _ _ _ ⟨"XAI", "grok", "http://mock", ""⟩
    200 "OK" "hi" rfl rfl (by omega)

/-- C2: with `LLM_PROVIDER` unset, `call_llm` fails with the configuration
error before any network request is issued; with provider `P` set but
`P_MODEL` (resp. `P_BASE_URL`) unset, it fails with a configuration error
naming that exact variable, again with no network request issued. -/
theorem call_llm_missing_config_fails_before_network (env : List (String × String))
    (net : HttpRequest → HttpOutcome) (prompt : String) (u : Bool) :
    (env.lookup "LLM_PROVIDER" = none →
      (call_llm env net prompt u).result =
        .error (.configError "LLM_PROVIDER environment variable is required") ∧
      (call_llm env net prompt u).request = none)
    ∧ (∀ P, env.lookup "LLM_PROVIDER" = some P → P ≠ "" →
        env.lookup (P ++ "_MODEL") = none →
      (call_llm env net prompt u).result =
        .error (.configError (P ++ "_MODEL environment variable is required")) ∧
      (call_llm env net prompt u).request = none)
    ∧ (∀ P M, env.lookup "LLM_PROVIDER" = some P → P ≠ "" →
        env.lookup (P ++ "_MODEL") = some M → M ≠ "" →
        env.lookup (P ++ "_BASE_URL") = none →
      (call_llm env net prompt u).result =
        .error (.configError (P ++ "_BASE_URL environment variable is required")) ∧
      (call_llm env net prompt u).request = none) := by
  refine ⟨fun hp => ?_, fun P hp hP hm => ?_, fun P M hp hP hm hM hb => ?_⟩
  · have h : resolveConfig env =
        .error (.configError "LLM_PROVIDER environment variable is required") := by
      simp [resolveConfig, required, hp, bind, Except.bind]
    simp [call_llm, h]
  · have h : resolveConfig env =
        .error (.configError (P ++ "_MODEL environment variable is required")) := by
      simp [resolveConfig, required, hp, hP, hm, bind, Except.bind, str_append_assoc]
    simp [call_llm, h]
  · have h : resolveConfig env =
        .error (.configError (P ++ "_BASE_URL environment variable is required")) := by
      simp [resolveConfig, required, hp, hP, hm, hM, hb, bind, Except.bind, str_append_assoc]
    simp [call_llm, h]

/-- Witness for C2: the spec's `LLM_PROVIDER=FOO` with `FOO_MODEL` unset
scenario fails naming `FOO_MODEL` and issues no request. -/
theorem call_llm_missing_config_fails_before_network_witness :
    (call_llm [("LLM_PROVIDER", "FOO")] (fun _ => .connectionError) "ping" true).result =
      .error (.configError "FOO_MODEL environment variable is required") ∧
    (call_llm [("LLM_PROVIDER", "FOO")] (fun _ => .connectionError) "ping" true).request = none :=
  (call_llm_missing_config_fails_before_network
      [("LLM_PROVIDER", "FOO")] (fun _ => .connectionError) "ping" true).2.1
    "FOO" rfl (by simp) rfl

/-- Counterexample to C3 as stated: a non-2xx response (status 302 with a
valid JSON body of the success shape) does not fail with an HTTP error —
`raise_for_status` only raises for statuses 400-599, so the call returns
the content instead. -/
theorem call_llm_non2xx_not_always_http_error :
    (call_llm [("LLM_PROVIDER", "XAI"), ("XAI_MODEL", "grok"), ("XAI_BASE_URL", "http://mock")]
      (fun _ => .response ⟨302, "Found", some (Json.obj [("choices",
        Json.arr [Json.obj [("message", Json.obj [("content", Json.str "hi")])]])])⟩)
      "ping" true).result = .ok (Json.str "hi") ∧
    ∀ s m, (call_llm [("LLM_PROVIDER", "XAI"), ("XAI_MODEL", "grok"), ("XAI_BASE_URL", "http://mock")]
      (fun _ => .response ⟨302, "Found", some (Json.obj [("choices",
        Json.arr [Json.obj [("message", Json.obj [("content", Json.str "hi")])]])])⟩)
      "ping" true).result ≠ .error (.httpError s m) := by
  refine ⟨rfl, fun s m hc => ?_⟩
  rw [show (call_llm [("LLM_PROVIDER", "XAI"), ("XAI_MODEL", "grok"), ("XAI_BASE_URL", "http://mock")]
      (fun _ => .response ⟨302, "Found", some (Json.obj [("choices",
        Json.arr [Json.obj [("message", Json.obj [("content", Json.str "hi")])]])])⟩)
      "ping" true).result = .ok (Json.str "hi") from rfl] at hc
  exact Except.noConfusion hc

/-- C3 amended: for a response whose status is in 400-599 with a valid JSON
body, `call_llm` fails with an HTTP error carrying the status; whenever the
parsed body holds an `error` field, that field's value appears in the
failure message. -/
theorem call_llm_4xx5xx_http_error (env : List (String × String))
    (net : HttpRequest → HttpOutcome) (prompt : String) (u : Bool)
    (cfg : ProviderConfig) (status : Nat) (reason : String) (body : Json)
    (hcfg : resolveConfig env = .ok cfg)
    (hnet : net (mkRequest cfg prompt) = .response ⟨status, reason, some body⟩)
    (h : 400 ≤ status ∧ status < 600) :
    ∃ msg, (call_llm env net prompt u).result = .error (.httpError status msg) ∧
      ∀ d, jsonGet body "error" = some d →
        ∃ pre post, msg = pre ++ pyStr d ++ post := by
  unfold call_llm
  rw [hcfg]
  simp only [hnet, handleOutcome, handleResponse]
  rw [if_pos h]
  refine ⟨_, rfl, fun d hd => ?_⟩
  cases body with
  | obj fields =>
      simp only [jsonGet] at hd
      refine ⟨("HTTP error occurred: " ++
          httpErrorStr status reason (mkRequest cfg prompt).url) ++ " (Details: ", ")", ?_⟩
      simp only [detailsSuffix, hd, Option.getD_some]
      simp [str_append_assoc]
  | null => simp [jsonGet] at hd
  | bool b => simp [jsonGet] at hd
  | num q => simp [jsonGet] at hd
  | str s => simp [jsonGet] at hd
  | arr l => simp [jsonGet] at hd

/-- Witness for the amended C3: the spec's mock scenario, a 500 response
with body `{"error":"boom"}` fails with an HTTP error whose message
contains `boom`. -/
theorem call_llm_4xx5xx_http_error_witness :
    ∃ msg, (call_llm [("LLM_PROVIDER", "XAI"), ("XAI_MODEL", "grok"), ("XAI_BASE_URL", "http://mock")]
      (fun _ => .response ⟨500, "Internal Server Error",
        some (Json.obj [("error", Json.str "boom")])⟩)
      "ping" true).result = .error (.httpError 500 msg) ∧
      ∀ d, jsonGet (Json.obj [("error", Json.str "boom")]) "error" = some d →
        ∃ pre post, msg = pre ++ pyStr d ++ post :=
  call_llm_4xx5xx_http_error _ _ _ _ ⟨"XAI", "grok", "http://mock", ""⟩
    500 "Internal Server Error" _ rfl rfl (by decide)

/-- C4: the outgoing request body is exactly the model, a single user-role
message carrying the prompt verbatim, and temperature 0.7. -/
theorem call_llm_payload_exact (env : List (String × String))
    (net : HttpRequest → HttpOutcome) (prompt : String) (u : Bool)
    (cfg : ProviderConfig) (hcfg : resolveConfig env = .ok cfg) :
    ∃ req, (call_llm env net prompt u).request = some req ∧
      req.payload = Json.obj
        [("model", Json.str cfg.model),
         ("messages", Json.arr [Json.obj [("role", Json.str "user"),
            ("content", Json.str prompt)]]),
         ("temperature", Json.num (7 / 10))] := by
  refine ⟨mkRequest cfg prompt, ?_, rfl⟩
  simp [call_llm, hcfg]

/-- Witness for C4 at a concrete configuration and prompt. -/
theorem call_llm_payload_exact_witness :
    ∃ req, (call_llm [("LLM_PROVIDER", "XAI"), ("XAI_MODEL", "grok"), ("XAI_BASE_URL", "http://mock")]
      (fun _ => .connectionError) "ping" true).request = some req ∧
      req.payload = Json.obj
        [("model", Json.str "grok"),
         ("messages", Json.arr [Json.obj [("role", Json.str "user"),
            ("content", Json.str "ping")]]),
         ("temperature", Json.num (7 / 10))] :=
  call_llm_payload_exact _ _ _ _ ⟨"XAI", "grok", "http://mock", ""⟩ rfl

/-- C5: the outgoing headers always include Content-Type: application/json;
the bearer Authorization header is present exactly when the resolved API key
is non-empty, and in particular absent when the API key variable is unset. -/
theorem call_llm_headers_spec (env : List (String × String))
    (net : HttpRequest → HttpOutcome) (prompt : String) (u : Bool) (P M B : String)
    (hp : env.lookup "LLM_PROVIDER" = some P) (hP : P ≠ "")
    (hm : env.lookup (P ++ "_MODEL") = some M) (hM : M ≠ "")
    (hb : env.lookup (P ++ "_BASE_URL") = some B) (hB : B ≠ "") :
    ∃ req, (call_llm env net prompt u).request = some req ∧
      ("Content-Type", "application/json") ∈ req.headers ∧
      req.headers = [("Content-Type", "application/json")] ++
        (if (env.lookup (P ++ "_API_KEY")).getD "" = "" then []
         else [("Authorization", "Bearer " ++ (env.lookup (P ++ "_API_KEY")).getD "")]) ∧
      (env.lookup (P ++ "_API_KEY") = none →
        req.headers = [("Content-Type", "application/json")]) := by
  have hcfg := resolveConfig_eq env P M B hp hP hm hM hb hB
  refine ⟨mkRequest ⟨P, M, B, (env.lookup (P ++ "_API_KEY")).getD ""⟩ prompt, ?_, ?_, rfl, ?_⟩
  · simp [call_llm, hcfg]
  · simp [mkRequest]
  · intro hk
    simp [mkRequest, hk]

/-- Witness for C5: no API key variable set, so only Content-Type is sent. -/
theorem call_llm_headers_spec_witness :
    ∃ req, (call_llm [("LLM_PROVIDER", "XAI"), ("XAI_MODEL", "grok"), ("XAI_BASE_URL", "http://mock")]
      (fun _ => .connectionError) "ping" true).request = some req ∧
      ("Content-Type", "application/json") ∈ req.headers ∧
      req.headers = [("Content-Type", "application/json")] ++
        (if (List.lookup ("XAI" ++ "_API_KEY")
              [("LLM_PROVIDER", "XAI"), ("XAI_MODEL", "grok"), ("XAI_BASE_URL", "http://mock")]).getD "" = ""
         then []
         else [("Authorization", "Bearer " ++ (List.lookup ("XAI" ++ "_API_KEY")
              [("LLM_PROVIDER", "XAI"), ("XAI_MODEL", "grok"), ("XAI_BASE_URL", "http://mock")]).getD "")]) ∧
      (List.lookup ("XAI" ++ "_API_KEY")
          [("LLM_PROVIDER", "XAI"), ("XAI_MODEL", "grok"), ("XAI_BASE_URL", "http://mock")] = none →
        req.headers = [("Content-Type", "application/json")]) :=
  call_llm_headers_spec _ _ "ping" true "XAI" "grok" "http://mock"
    rfl (by decide) rfl (by decide) rfl (by decide)

/-- C6: the target URL is the plain concatenation of the resolved base URL
and the fixed endpoint suffix, with no rewriting of the base URL. -/
theorem call_llm_url_concat (env : List (String × String))
    (net : HttpRequest → HttpOutcome) (prompt : String) (u : Bool)
    (cfg : ProviderConfig) (hcfg : resolveConfig env = .ok cfg) :
    ∃ req, (call_llm env net prompt u).request = some req ∧
      req.url = cfg.base_url ++ "/v1/chat/completions" := by
  refine ⟨mkRequest cfg prompt, ?_, rfl⟩
  simp [call_llm, hcfg]

/-- Witness for C6: a base URL with a trailing slash is concatenated as-is
(yielding a double slash, not normalized away). -/
theorem call_llm_url_concat_witness :
    (∃ req, (call_llm [("LLM_PROVIDER", "XAI"), ("XAI_MODEL", "grok"), ("XAI_BASE_URL", "http://mock/")]
      (fun _ => .connectionError) "ping" true).request = some req ∧
      req.url = "http://mock/" ++ "/v1/chat/completions") ∧
    "http://mock/" ++ "/v1/chat/completions" = "http://mock//v1/chat/completions" :=
  ⟨call_llm_url_concat _ _ _ _ ⟨"XAI", "grok", "http://mock/", ""⟩ rfl, rfl⟩

/-- C7: when the response body is not valid JSON, `call_llm` fails with the
provider-specific parse failure message and no other failure kind. -/
theorem call_llm_invalid_json_parse_error (env : List (String × String))
    (net : HttpRequest → HttpOutcome) (prompt : String) (u : Bool)
    (cfg : ProviderConfig) (status : Nat) (reason : String)
    (hcfg : resolveConfig env = .ok cfg)
    (hnet : net (mkRequest cfg prompt) = .response ⟨status, reason, none⟩) :
    (call_llm env net prompt u).result = .error (.parseFailed
      ("Failed to parse response as JSON from " ++ cfg.provider ++
        ". The server might have returned an invalid response.")) := by
  unfold call_llm
  rw [hcfg]
  simp [hnet, handleOutcome, handleResponse]

/-- Witness for C7 at a concrete configuration and a non-JSON body. -/
theorem call_llm_invalid_json_parse_error_witness :
    (call_llm [("LLM_PROVIDER", "XAI"), ("XAI_MODEL", "grok"), ("XAI_BASE_URL", "http://mock")]
      (fun _ => .response ⟨200, "OK", none⟩) "ping" true).result =
      .error (.parseFailed ("Failed to parse response as JSON from " ++ "XAI" ++
        ". The server might have returned an invalid response.")) :=
  call_llm_invalid_json_parse_error _ _ _ _ ⟨"XAI", "grok", "http://mock", ""⟩
    200 "OK" rfl rfl

/-- C8: two sequential invocations with the same prompt each issue their own
network request (the endpoint is contacted twice), and the second call's
behaviour is exactly that of an independent first call — no cached result
ever stands in for a network request. -/
theorem call_llm_two_calls_two_requests (env : List (String × String))
    (net : HttpRequest → HttpOutcome) (prompt : String) (u : Bool)
    (cfg : ProviderConfig) (hcfg : resolveConfig env = .ok cfg) :
    requestsIssued (runCalls env net [prompt, prompt] u) =
      [mkRequest cfg prompt, mkRequest cfg prompt] ∧
    runCalls env net [prompt, prompt] u =
      [call_llm env net prompt u, call_llm env net prompt u] := by
  constructor
  · simp [runCalls, requestsIssued, call_llm, hcfg]
  · rfl

/-- Witness for C8: with a mock endpoint, the request list of two sequential
calls has the two (identical) requests. -/
theorem call_llm_two_calls_two_requests_witness :
    requestsIssued (runCalls [("LLM_PROVIDER", "XAI"), ("XAI_MODEL", "grok"), ("XAI_BASE_URL", "http://mock")]
      (fun _ => .response ⟨200, "OK", some (Json.obj [("choices",
        Json.arr [Json.obj [("message", Json.obj [("content", Json.str "hi")])]])])⟩)
      ["ping", "ping"] true) =
      [mkRequest ⟨"XAI", "grok", "http://mock", ""⟩ "ping",
       mkRequest ⟨"XAI", "grok", "http://mock", ""⟩ "ping"] ∧
    runCalls [("LLM_PROVIDER", "XAI"), ("XAI_MODEL", "grok"), ("XAI_BASE_URL", "http://mock")]
      (fun _ => .response ⟨200, "OK", some (Json.obj [("choices",
        Json.arr [Json.obj [("message", Json.obj [("content", Json.str "hi")])]])])⟩)
      ["ping", "ping"] true =
      [call_llm [("LLM_PROVIDER", "XAI"), ("XAI_MODEL", "grok"), ("XAI_BASE_URL", "http://mock")]
        (fun _ => .response ⟨200, "OK", some (Json.obj [("choices",
          Json.arr [Json.obj [("message", Json.obj [("content", Json.str "hi")])]])])⟩)
        "ping" true,
       call_llm [("LLM_PROVIDER", "XAI"), ("XAI_MODEL", "grok"), ("XAI_BASE_URL", "http://mock")]
        (fun _ => .response ⟨200, "OK", some (Json.obj [("choices",
          Json.arr [Json.obj [("message", Json.obj [("content", Json.str "hi")])]])])⟩)
        "ping" true] :=
  call_llm_two_calls_two_requests _ _ _ _ ⟨"XAI", "grok", "http://mock", ""⟩ rfl

/-- C9: the `use_cache` parameter has no effect whatsoever: for every
environment, transport and prompt, both parameter values yield the same
request, the same log lines and the same result. -/
theorem call_llm_use_cache_no_effect (env : List (String × String))
    (net : HttpRequest → HttpOutcome) (prompt : String) (u₁ u₂ : Bool) :
    call_llm env net prompt u₁ = call_llm env net prompt u₂ := rfl

/-- C10: every invocation logs the full prompt as its first log line, and an
invocation that fails during configuration resolution still leaves exactly
that log line behind. -/
theorem call_llm_logs_prompt_first (env : List (String × String))
    (net : HttpRequest → HttpOutcome) (prompt : String) (u : Bool) :
    (∃ rest, (call_llm env net prompt u).logs = .prompt prompt :: rest) ∧
    (∀ e, resolveConfig env = .error e →
      (call_llm env net prompt u).logs = [.prompt prompt]) := by
  constructor
  · cases h : resolveConfig env with
    | error e => exact ⟨[], by simp [call_llm, h]⟩
    | ok cfg =>
        exact ⟨(handleOutcome cfg.provider (mkRequest cfg prompt).url
          (net (mkRequest cfg prompt))).2, by simp [call_llm, h]⟩
  · intro e he
    simp [call_llm, he]

/-- Witness for C10: with an empty environment the call fails with the
configuration error, yet the prompt has been logged. -/
theorem call_llm_logs_prompt_first_witness :
    (∃ rest, (call_llm [] (fun _ => .connectionError) "ping" true).logs =
      LogEntry.prompt "ping" :: rest) ∧
    (call_llm [] (fun _ => .connectionError) "ping" true).logs = [LogEntry.prompt "ping"] :=
  ⟨(call_llm_logs_prompt_first [] (fun _ => .connectionError) "ping" true).1,
   (call_llm_logs_prompt_first [] (fun _ => .connectionError) "ping" true).2
     (.configError "LLM_PROVIDER environment variable is required") rfl⟩

end CallLlm
